import Mathlib

set_option maxRecDepth 8000
set_option maxHeartbeats 1000000

/-!
Verification development for the Garaga auto-prover bridge
(`backend-rust/scripts/garaga_auto_prover.py`).

The Python source is shallowly embedded below.  Python `str` values are
modelled by Lean `String` (operating on the underlying `List Char`),
Python `int` by `Int`/`Nat`, Python dynamic values by the `PyVal`
inductive, and every `fail(...)` exit of the script by an
`Except BridgeError` result.  Redis state (one counter key) is modelled
by `Option Int` (`none` = key absent), and the concurrent admission
queue by an explicit step relation.
-/

/-! ## Python string primitives -/

/-- Model of the ASCII whitespace characters removed by Python `str.strip()`
(space, tab, newline, carriage return, vertical tab, form feed). -/
def isPySpace (c : Char) : Bool :=
  c = ' ' || c = '\t' || c = '\n' || c = '\r' || c = '\x0b' || c = '\x0c'

/-- Python `str.strip()` on the character list: drop leading and trailing whitespace. -/
def pyStripList (cs : List Char) : List Char :=
  ((cs.dropWhile isPySpace).reverse.dropWhile isPySpace).reverse

/-- Python `str.strip()` on strings. -/
def pyStripS (s : String) : String := String.mk (pyStripList s.data)

/-- ASCII model of Python `str.lower()` on one character. -/
def asciiLower (c : Char) : Char :=
  if 'A' ≤ c ∧ c ≤ 'Z' then Char.ofNat (c.toNat + 32) else c

/-- Python `str.lower()` on strings. -/
def pyLowerS (s : String) : String := String.mk (s.data.map asciiLower)

/-- The check `raw.lower().startswith("0x")`, applied to the already lowered list. -/
def starts0x : List Char → Bool
  | c0 :: c1 :: _ => c0 = '0' && c1 = 'x'
  | _ => false

/-! ## Python `int(s, base)` (bases 10 and 16)

Python accepts an optional sign, an optional `0x`/`0X` prefix in base 16,
and single underscores between digits (after the prefix an underscore may
directly precede the first digit). -/

/-- Value of one digit character in base `b` (`b` = 10 or 16). -/
def digitVal (b : Nat) (c : Char) : Option Nat :=
  let v : Option Nat :=
    if '0' ≤ c ∧ c ≤ '9' then some (c.toNat - 48)
    else if 'a' ≤ c ∧ c ≤ 'f' then some (c.toNat - 87)
    else if 'A' ≤ c ∧ c ≤ 'F' then some (c.toNat - 55)
    else none
  match v with
  | some d => if d < b then some d else none
  | none => none

/-- Digit run with single underscores allowed before each digit
(Python: `(["_"] digit)*` continuing an accumulated value). -/
def digitsRun (b : Nat) (acc : Nat) : List Char → Option Nat
  | [] => some acc
  | c :: rest =>
    if c = '_' then
      match rest with
      | c2 :: rest2 =>
        match digitVal b c2 with
        | some d => digitsRun b (acc * b + d) rest2
        | none => none
      | [] => none
    else
      match digitVal b c with
      | some d => digitsRun b (acc * b + d) rest
      | none => none

/-- Digit sequence that must start with a digit (no leading underscore). -/
def parseDigits (b : Nat) : List Char → Option Nat
  | [] => none
  | c :: rest =>
    match digitVal b c with
    | some d => digitsRun b d rest
    | none => none

/-- Unsigned part of Python `int(s, b)`: in base 16 an optional `0x`/`0X`
prefix is stripped and an underscore may follow it. -/
def parsePyIntNoSign (b : Nat) (cs : List Char) : Option Nat :=
  if b = 16 then
    match cs with
    | c0 :: c1 :: rest =>
      if c0 = '0' ∧ (c1 = 'x' ∨ c1 = 'X') then
        match rest with
        | [] => none
        | _ :: _ => digitsRun 16 0 rest
      else parseDigits b (c0 :: c1 :: rest)
    | cs' => parseDigits b cs'
  else parseDigits b cs

/-- Python `int(s, b)` on an already stripped character list: optional sign,
then the unsigned literal. -/
def parsePyInt (b : Nat) (cs : List Char) : Option Int :=
  match cs with
  | [] => none
  | c :: rest =>
    if c = '-' then (parsePyIntNoSign b rest).map (fun n => -(n : Int))
    else if c = '+' then (parsePyIntNoSign b rest).map (fun n => (n : Int))
    else (parsePyIntNoSign b (c :: rest)).map (fun n => (n : Int))

/-! ## Python `hex(n)` for nonnegative `n` -/

/-- Lowercase hex digit character. -/
def hexDigitChar (d : Nat) : Char :=
  if d < 10 then Char.ofNat (48 + d) else Char.ofNat (87 + d)

/-- Fuel-driven most-significant-first hex digits of `n` (fuel `> n` suffices). -/
def toHexDigitsAux : Nat → Nat → List Char
  | 0, _ => []
  | fuel + 1, n =>
    if n < 16 then [hexDigitChar n]
    else toHexDigitsAux fuel (n / 16) ++ [hexDigitChar (n % 16)]

/-- Hex digits of `n`, most significant first; `toHexDigits 0 = ['0']`. -/
def toHexDigits (n : Nat) : List Char := toHexDigitsAux (n + 1) n

/-- Python `hex(n)` for `n ≥ 0`: `0x` plus lowercase hex digits. -/
def pyHex (n : Nat) : String := String.mk ('0' :: 'x' :: toHexDigits n)

/-! ## Dynamic Python values and the felt codec -/

/-! Model of the Python values fed to `to_hex_felt` / stored in payloads.
Dicts are a mutual inductive so that recursion through them stays
structural (and therefore kernel-computable). -/
mutual
inductive PyVal where
  | vstr (s : String)
  | vint (n : Int)
  | vnone
  | vdict (d : PyDict)
inductive PyDict where
  | nil
  | cons (k : String) (v : PyVal) (rest : PyDict)
end

/-- Build a dict value from an entry list (entry order = insertion order). -/
def pyDictOf : List (String × PyVal) → PyDict
  | [] => .nil
  | (k, v) :: rest => .cons k v (pyDictOf rest)

/-- Python `type(value).__name__` for the modelled values. -/
def pyTypeName : PyVal → String
  | .vstr _ => "str"
  | .vint _ => "int"
  | .vnone => "NoneType"
  | .vdict _ => "dict"

/-- The STARK field prime `P = 2^251 + 17·2^192 + 1`
(`STARKNET_PRIME` in the source, line 27). -/
def STARKNET_PRIME : Nat := (1 <<< 251) + (17 <<< 192) + 1

/-- Failure modes of the bridge.  Constructors tagged `-- fail()` model a
controlled `fail(...)` exit of the script; `valueError` models an uncaught
Python `ValueError` escaping `int(...)`. -/
inductive BridgeError where
  | emptyFelt                                               -- fail(), line 86
  | unsupportedFeltType (tyName : String)                   -- fail(), line 94
  | valueError (raw : String)                               -- uncaught ValueError
  | insufficientPublicInputs (len required nIdx cIdx : Nat) -- fail(), line 179
  | queueBackend (msg : String)                             -- fail(), lines 314-329
  | invalidIncrResponse (raw : String)                      -- fail(), line 381
  | queueTimeout                                            -- fail(), line 401
  | missingRedisUrl                                         -- fail(), line 350
deriving DecidableEq

instance {ε α : Type} [DecidableEq ε] [DecidableEq α] : DecidableEq (Except ε α) :=
  fun x y =>
    match x, y with
    | .ok a, .ok b => if h : a = b then .isTrue (by rw [h]) else .isFalse (by simp [h])
    | .error a, .error b => if h : a = b then .isTrue (by rw [h]) else .isFalse (by simp [h])
    | .ok _, .error _ => .isFalse (by simp)
    | .error _, .ok _ => .isFalse (by simp)

/-- Reduction `(n % P).toNat` — Python `%` on a positive modulus is nonnegative. -/
def intModPrime (n : Int) : Nat := (n % (STARKNET_PRIME : Int)).toNat

/-- Embedding of `to_hex_felt` (source lines 82-96): strip, reject empty,
parse hex when the lowered string starts with `0x` else decimal, accept
native ints, reduce modulo `STARKNET_PRIME`, serialize with `hex()`. -/
def to_hex_felt : PyVal → Except BridgeError String
  | .vstr s =>
    let raw := pyStripList s.data
    if raw = [] then .error .emptyFelt
    else if starts0x (raw.map asciiLower) then
      match parsePyInt 16 raw with
      | some n => .ok (pyHex (intModPrime n))
      | none => .error (.valueError (String.mk raw))
    else
      match parsePyInt 10 raw with
      | some n => .ok (pyHex (intModPrime n))
      | none => .error (.valueError (String.mk raw))
  | .vint n => .ok (pyHex (intModPrime n))
  | v => .error (.unsupportedFeltType (pyTypeName v))

example : to_hex_felt (.vstr ("0x1F")) = .ok ("0x1f") := by decide
example : to_hex_felt (.vstr (" 10 ")) = .ok ("0xa") := by decide
example : to_hex_felt (.vstr ("")) = .error .emptyFelt := by decide
example : to_hex_felt (.vstr ("  ")) = .error .emptyFelt := by decide
example : to_hex_felt (.vstr ("0x_f")) = .ok ("0xf") := by decide
example : to_hex_felt (.vstr ("1_0")) = .ok ("0xa") := by decide
example : to_hex_felt (.vstr ("zz")) = .error (.valueError ("zz")) := by decide
example : to_hex_felt (.vstr ("-0x5")) = .error (.valueError ("-0x5")) := by decide
example : to_hex_felt .vnone = .error (.unsupportedFeltType ("NoneType")) := by decide
example : to_hex_felt (.vint 0) = .ok ("0x0") := by decide
example : to_hex_felt (.vstr ("-5")) = to_hex_felt (.vint (-5)) := by decide
example : to_hex_felt (.vint (-1)) =
    .ok (pyHex (STARKNET_PRIME - 1)) := by decide

/-! ## SHA-256 (`hashlib.sha256`)

Executable big-endian SHA-256 over byte lists, with bitwise operations
written as fuel-based structural recursions so that the kernel can
evaluate them. -/

/-- Combine the low `fuel` bits of `a` and `b` with the boolean function `f`. -/
def bitsOpAux (f : Bool → Bool → Bool) : Nat → Nat → Nat → Nat
  | 0, _, _ => 0
  | fuel + 1, a, b =>
    (cond (f (a % 2 == 1) (b % 2 == 1)) 1 0) + 2 * bitsOpAux f fuel (a / 2) (b / 2)

/-- Bitwise exclusive or on 32-bit words. -/
def xor32 (a b : Nat) : Nat := bitsOpAux (fun x y => x != y) 32 a b

/-- Bitwise and on 32-bit words. -/
def and32 (a b : Nat) : Nat := bitsOpAux (fun x y => x && y) 32 a b

/-- Bitwise complement on 32-bit words. -/
def not32 (a : Nat) : Nat := 4294967295 - a % 4294967296

/-- Addition modulo `2^32`. -/
def add32 (a b : Nat) : Nat := (a + b) % 4294967296

/-- Rotate a 32-bit word right by `n` positions, written arithmetically. -/
def rotr32 (x n : Nat) : Nat := (x / 2 ^ n + x % 2 ^ n * 2 ^ (32 - n)) % 4294967296

/-- Logical right shift. -/
def shr32 (x n : Nat) : Nat := x / 2 ^ n

def sigma0 (x : Nat) : Nat := xor32 (xor32 (rotr32 x 7) (rotr32 x 18)) (shr32 x 3)

def sigma1 (x : Nat) : Nat := xor32 (xor32 (rotr32 x 17) (rotr32 x 19)) (shr32 x 10)

def bigSigma0 (x : Nat) : Nat := xor32 (xor32 (rotr32 x 2) (rotr32 x 13)) (rotr32 x 22)

def bigSigma1 (x : Nat) : Nat := xor32 (xor32 (rotr32 x 6) (rotr32 x 11)) (rotr32 x 25)

def shaCh (e f g : Nat) : Nat := xor32 (and32 e f) (and32 (not32 e) g)

def shaMaj (a b c : Nat) : Nat := xor32 (xor32 (and32 a b) (and32 a c)) (and32 b c)

/-- The 64 SHA-256 round constants (decimal rendering of the FIPS 180-4
values). -/
def K256 : List Nat :=
  [1116352408, 1899447441, 3049323471, 3921009573, 961987163, 1508970993,
   2453635748, 2870763221, 3624381080, 310598401, 607225278, 1426881987,
   1925078388, 2162078206, 2614888103, 3248222580, 3835390401, 4022224774,
   264347078, 604807628, 770255983, 1249150122, 1555081692, 1996064986,
   2554220882, 2821834349, 2952996808, 3210313671, 3336571891, 3584528711,
   113926993, 338241895, 666307205, 773529912, 1294757372, 1396182291,
   1695183700, 1986661051, 2177026350, 2456956037, 2730485921, 2820302411,
   3259730800, 3345764771, 3516065817, 3600352804, 4094571909, 275423344,
   430227734, 506948616, 659060556, 883997877, 958139571, 1322822218,
   1537002063, 1747873779, 1955562222, 2024104815, 2227730452, 2361852424,
   2428436474, 2756734187, 3204031479, 3329325298]

/-- The SHA-256 initial hash value (decimal rendering). -/
def H256 : List Nat :=
  [1779033703, 3144134277, 1013904242, 2773480762,
   1359893119, 2600822924, 528734635, 1541459225]

/-- The `k` big-endian bytes of `n`. -/
def beBytes : Nat → Nat → List Nat
  | 0, _ => []
  | k + 1, n => beBytes k (n / 256) ++ [n % 256]

/-- SHA-256 message padding: `0x80`, zeros to 56 mod 64, 8-byte bit length. -/
def padMessage (msg : List Nat) : List Nat :=
  msg ++ 128 :: List.replicate ((119 - msg.length % 64) % 64) 0
    ++ beBytes 8 (msg.length * 8)

/-- Group bytes into big-endian 32-bit words. -/
def toWords : List Nat → List Nat
  | a :: b :: c :: d :: rest => (((a * 256 + b) * 256 + c) * 256 + d) :: toWords rest
  | _ => []

/-- Split a word list into 16-word blocks (fuel-driven). -/
def toBlocksAux : Nat → List Nat → List (List Nat)
  | 0, _ => []
  | _ + 1, [] => []
  | fuel + 1, ws => ws.take 16 :: toBlocksAux fuel (ws.drop 16)

/-- Extend a 16-word block by `k` further schedule words. -/
def scheduleAux : Nat → List Nat → List Nat
  | 0, ws => ws
  | k + 1, ws =>
    let i := ws.length
    scheduleAux k (ws ++ [add32 (add32 (sigma1 (ws.getD (i - 2) 0)) (ws.getD (i - 7) 0))
      (add32 (sigma0 (ws.getD (i - 15) 0)) (ws.getD (i - 16) 0))])

/-- One SHA-256 round on the 8-word working state. -/
def roundStep (st : List Nat) (kw : Nat × Nat) : List Nat :=
  match st with
  | [a, b, c, d, e, f, g, h] =>
    let t1 := add32 (add32 h (bigSigma1 e)) (add32 (shaCh e f g) (add32 kw.1 kw.2))
    let t2 := add32 (bigSigma0 a) (shaMaj a b c)
    [add32 t1 t2, a, b, c, add32 d t1, e, f, g]
  | other => other

/-- Compress one 16-word block into the running hash. -/
def compressBlock (h : List Nat) (block : List Nat) : List Nat :=
  let st := (K256.zip (scheduleAux 48 block)).foldl roundStep h
  (h.zip st).map (fun p => add32 p.1 p.2)

/-- SHA-256 digest of a byte list as eight 32-bit words. -/
def sha256Words (msg : List Nat) : List Nat :=
  let ws := toWords (padMessage msg)
  (toBlocksAux ws.length ws).foldl compressBlock H256

/-- Model of `hashlib.sha256(msg).digest()`: the 32 digest bytes. -/
def sha256Bytes (msg : List Nat) : List Nat :=
  (sha256Words msg).foldl (fun acc w => acc ++ beBytes 4 w) []

/-- Python `int.from_bytes(bs, byteorder="big")`. -/
def intFromBytesBE (bs : List Nat) : Nat := bs.foldl (fun acc b => acc * 256 + b) 0

/-- UTF-8 encoding of one unicode scalar value. -/
def utf8EncodeChar (c : Char) : List Nat :=
  let n := c.toNat
  if n < 0x80 then [n]
  else if n < 0x800 then [0xc0 + n / 64, 0x80 + n % 64]
  else if n < 0x10000 then [0xe0 + n / 4096, 0x80 + n / 64 % 64, 0x80 + n % 64]
  else [0xf0 + n / 262144, 0x80 + n / 4096 % 64, 0x80 + n / 64 % 64, 0x80 + n % 64]

/-- Python `s.encode("utf-8")` as a byte list. -/
def utf8Encode (s : String) : List Nat := s.data.flatMap utf8EncodeChar

example : intFromBytesBE (sha256Bytes (utf8Encode ("abc"))) =
    0xba7816bf8f01cfea414140de5dae2223b00361a396177a9cb410ff61f20015ad := by decide

/-! ## Payload model and helpers shared by the intent hasher -/

/-- Python `dict.get(k)` on the dict model. -/
def lookupKey (k : String) : PyDict → Option PyVal
  | .nil => none
  | .cons k' v rest => if k' = k then some v else lookupKey k rest

/-- Python `sep.join(parts)`. -/
def joinStr (sep : String) : List String → String
  | [] => ""
  | [x] => x
  | x :: rest => x ++ sep ++ joinStr sep rest

/-! Python `repr`, rendered structurally through nested dicts. -/
mutual
def pyReprVal : PyVal → String
  | .vstr s => "'" ++ s ++ "'"
  | .vint n => toString n
  | .vnone => "None"
  | .vdict d => "\x7b" ++ joinStr (", ") (pyReprEntries d) ++ "\x7d"
def pyReprEntries : PyDict → List String
  | .nil => []
  | .cons k v rest => ("'" ++ k ++ "': " ++ pyReprVal v) :: pyReprEntries rest
end

/-- Python `str(value)` for the modelled values. -/
def pyStr : PyVal → String
  | .vstr s => s
  | .vint n => toString n
  | .vnone => "None"
  | .vdict d => pyReprVal (.vdict d)

/-- Four-digit lowercase hex, as in JSON `\uXXXX` escapes. -/
def hex4 (n : Nat) : String :=
  let ds := toHexDigits n
  String.mk (List.replicate (4 - ds.length) '0' ++ ds)

/-- One character escaped as by `json.dumps` (default `ensure_ascii=True`). -/
def jsonEscapeChar (c : Char) : String :=
  if c = '"' then ("\\\"")
  else if c = '\\' then ("\\\\")
  else if c = '\n' then ("\\n")
  else if c = '\r' then ("\\r")
  else if c = '\t' then ("\\t")
  else if c.toNat = 8 then ("\\b")
  else if c.toNat = 12 then ("\\f")
  else if c.toNat < 32 then ("\\u") ++ hex4 c.toNat
  else if c.toNat < 127 then String.mk [c]
  else if c.toNat < 0x10000 then ("\\u") ++ hex4 c.toNat
  else
    ("\\u") ++ hex4 (0xd800 + (c.toNat - 0x10000) / 1024)
      ++ ("\\u") ++ hex4 (0xdc00 + (c.toNat - 0x10000) % 1024)

/-- JSON string literal for `s`. -/
def jsonQuoteS (s : String) : String :=
  "\"" ++ joinStr ("") (s.data.map jsonEscapeChar) ++ "\""

/-- Code-point lexicographic `≤`, Python's string ordering. -/
def strLeChars : List Char → List Char → Bool
  | [], _ => true
  | _ :: _, [] => false
  | a :: as, b :: bs =>
    if a.toNat < b.toNat then true
    else if b.toNat < a.toNat then false
    else strLeChars as bs

/-- Insertion sort of already-rendered entries by key (`sort_keys=True`). -/
def insertByKey (kv : String × String) : List (String × String) → List (String × String)
  | [] => [kv]
  | kv' :: rest =>
    if strLeChars kv.1.data kv'.1.data then kv :: kv' :: rest
    else kv' :: insertByKey kv rest

def sortByKey : List (String × String) → List (String × String)
  | [] => []
  | kv :: rest => insertByKey kv (sortByKey rest)

/-! `json.dumps(value, sort_keys=True)` with the default separators: values
are rendered structurally, then each dict's entries are sorted by key. -/
mutual
def jsonDumpVal : PyVal → String
  | .vstr s => jsonQuoteS s
  | .vint n => toString n
  | .vnone => "null"
  | .vdict d =>
    "\x7b" ++
      joinStr (", ")
        ((sortByKey (jsonEntryPairs d)).map (fun kv => jsonQuoteS kv.1 ++ ": " ++ kv.2))
      ++ "\x7d"
def jsonEntryPairs : PyDict → List (String × String)
  | .nil => []
  | .cons k v rest => (k, jsonDumpVal v) :: jsonEntryPairs rest
end

/-- Model of `json.dumps(tx_context, sort_keys=True)` (source line 242). -/
def jsonDumpsSorted (d : PyDict) : String := jsonDumpVal (.vdict d)

/-- Embedding of `_tx_field` (source lines 196-204): first key whose value is
present, not `None`, and whose stripped `str()` is non-empty. -/
def txField (tx : PyDict) : List String → String
  | [] => ""
  | k :: rest =>
    match lookupKey k tx with
    | none => txField tx rest
    | some .vnone => txField tx rest
    | some v =>
      let text := pyStripS (pyStr v)
      if text = "" then txField tx rest else text

/-- The stdin payload fields the bridge reads (`ProofRequest` in the spec). -/
structure StdinPayload where
  user_address : Option PyVal := none
  verifier : Option PyVal := none
  requested_at_unix : Option PyVal := none
  tx_context : Option PyVal := none

/-- Model of `tx_context_raw if isinstance(tx_context_raw, dict) else the empty dict` (line 209). -/
def txContextOf (p : StdinPayload) : PyDict :=
  match p.tx_context with
  | some (.vdict d) => d
  | _ => .nil

/-- The nonce before the process-time fallback: `tx_context.nonce`, else
stripped `requested_at_unix` (lines 212-214). -/
def nonceBase (p : StdinPayload) : String :=
  let n0 := txField (txContextOf p) ["nonce"]
  if n0 = "" then pyStripS (pyStr (p.requested_at_unix.getD (.vstr ("")))) else n0

/-- Full nonce resolution (lines 212-216); `time_ns` stands for the
`str(time.time_ns())` fallback of the run. -/
def resolveNonce (p : StdinPayload) (time_ns : String) : String :=
  if nonceBase p = "" then time_ns else nonceBase p

/-- Model of `str(stdin_payload.get("user_address", "")).strip().lower()` (line 211). -/
def userAddressOf (p : StdinPayload) : String :=
  pyLowerS (pyStripS (pyStr (p.user_address.getD (.vstr ("")))))

/-- The flow-specific preimage list of `compute_intent_hash`
(source lines 218-242). -/
def intentPreimage (p : StdinPayload) (nonce : String) : List String :=
  let tx : PyDict := txContextOf p
  let flow := pyLowerS (txField tx ["flow", "action_type"])
  let user_address := userAddressOf p
  if flow = "swap" then
    [user_address, txField tx ["from_token"], txField tx ["to_token"],
     txField tx ["amount"], nonce]
  else if flow = "limit" ∨ flow = "limit_order" ∨ flow = "limit-order" then
    [user_address, txField tx ["from_token"], txField tx ["to_token"],
     txField tx ["amount"], txField tx ["price"], nonce]
  else if flow = "stake" then
    let token := txField tx ["token", "from_token"]
    let pool0 := txField tx ["pool"]
    let pool := if pool0 = "" then token else pool0
    [user_address, token, txField tx ["amount"], pool, nonce]
  else
    [user_address, jsonDumpsSorted tx, nonce]

/-- The join `"|".join(preimage)` (line 244). -/
def intentPreimageString (p : StdinPayload) (nonce : String) : String :=
  joinStr ("|") (intentPreimage p nonce)

/-- Embedding of `compute_intent_hash` (source lines 207-246).  The
`time_ns` argument models the value `str(time.time_ns())` would take in
this run; it is only consulted when both `tx_context.nonce` and
`requested_at_unix` resolve empty. -/
def compute_intent_hash (p : StdinPayload) (time_ns : String) :
    Except BridgeError (String × String) := do
  let nonce := resolveNonce p time_ns
  let digest := sha256Bytes (utf8Encode (intentPreimageString p nonce))
  let intent_hash ← to_hex_felt (.vint (Int.ofNat (intFromBytesBE digest)))
  pure (intent_hash, nonce)

/-- Embedding of `make_dynamic_binding` (source lines 249-261). -/
def make_dynamic_binding (p : StdinPayload) (intent_hash nonce : String) :
    Except BridgeError (String × String) := do
  let requested_at := pyStripS (pyStr (p.requested_at_unix.getD (.vstr (""))))
  let verifier := pyStr (p.verifier.getD (.vstr ("")))
  let seed := intent_hash ++ "|" ++ nonce ++ "|" ++ requested_at ++ "|" ++ verifier
  let raw := utf8Encode seed
  let nullifier ← to_hex_felt
    (.vint (Int.ofNat (intFromBytesBE (sha256Bytes (raw ++ utf8Encode (":nullifier"))))))
  let commitment ← to_hex_felt
    (.vint (Int.ofNat (intFromBytesBE (sha256Bytes (raw ++ utf8Encode (":commitment"))))))
  pure (nullifier, commitment)

/-- Sample payload A of the spec's end-to-end scenario (a `swap` flow). -/
def sampleSwap : StdinPayload where
  user_address := some (.vstr ("0x111"))
  verifier := some (.vstr ("garaga"))
  requested_at_unix := some (.vint 1000)
  tx_context := some (.vdict (pyDictOf
    [("flow", .vstr ("swap")), ("from_token", .vstr ("USDC")),
     ("to_token", .vstr ("ETH")), ("amount", .vstr ("100")),
     ("nonce", .vstr ("n1"))]))

/-- Payload `sampleSwap` with only the flow changed to `stake`. -/
def sampleStake : StdinPayload where
  user_address := some (.vstr ("0x111"))
  verifier := some (.vstr ("garaga"))
  requested_at_unix := some (.vint 1000)
  tx_context := some (.vdict (pyDictOf
    [("flow", .vstr ("stake")), ("from_token", .vstr ("USDC")),
     ("to_token", .vstr ("ETH")), ("amount", .vstr ("100")),
     ("nonce", .vstr ("n1"))]))

example : intentPreimageString sampleSwap ("n1") = "0x111|USDC|ETH|100|n1" := by decide
example : intentPreimageString sampleStake ("n1") = "0x111|USDC|100|USDC|n1" := by decide
example : nonceBase sampleSwap = "n1" := by decide
example : jsonDumpsSorted .nil = "\x7b\x7d" := by decide
example : jsonDumpsSorted (pyDictOf [("b", .vint 2), ("a", .vstr ("x"))]) =
    "\x7b\"a\": \"x\", \"b\": 2\x7d" := by decide
example : resolveNonce { user_address := some (.vstr ("0xA")) } ("777") = "777" := by
  decide
example : compute_intent_hash sampleSwap ("t") =
    .ok ("0x2dd968cf40b871e9e09602c97362bfaaa576e4aabbac3c0b48834f3b4302e07", "n1") := by
  decide

/-! ## Binding deriver -/

/-- Embedding of `bind_nullifier_commitment_from_public_inputs`
(source lines 174-186).  The two indices come from `parse_index`, which
guarantees nonnegative integers, so they are `Nat` parameters here
(defaults in the source: nullifier 0, commitment 1). -/
def bind_nullifier_commitment_from_public_inputs
    (nullifier_idx commitment_idx : Nat) (public_inputs : List String) :
    Except BridgeError (String × String) :=
  let required_len := max nullifier_idx commitment_idx + 1
  if public_inputs.length < required_len then
    .error (.insufficientPublicInputs public_inputs.length required_len
      nullifier_idx commitment_idx)
  else do
    let nullifier ← to_hex_felt (.vstr (public_inputs.getD nullifier_idx ("")))
    let commitment ← to_hex_felt (.vstr (public_inputs.getD commitment_idx ("")))
    pure (nullifier, commitment)

/-- Embedding of `apply_binding_to_public_inputs` (source lines 264-276):
pad with `"0x0"` up to `max(nullifier_idx, commitment_idx) + 1`, then write
the normalized nullifier and, after it, the normalized commitment. -/
def apply_binding_to_public_inputs
    (nullifier_idx commitment_idx : Nat) (public_inputs : List String)
    (nullifier commitment : String) : Except BridgeError (List String) :=
  let required_len := max nullifier_idx commitment_idx + 1
  let padded := public_inputs ++
    List.replicate (required_len - public_inputs.length) "0x0"
  do
    let n ← to_hex_felt (.vstr nullifier)
    let c ← to_hex_felt (.vstr commitment)
    pure ((padded.set nullifier_idx n).set commitment_idx c)

example : bind_nullifier_commitment_from_public_inputs 0 1 ["5", "10", "20"] =
    .ok ("0x5", "0xa") := by decide
example : bind_nullifier_commitment_from_public_inputs 0 1 ["5"] =
    .error (.insufficientPublicInputs 1 2 0 1) := by decide
example : apply_binding_to_public_inputs 0 1 [] ("7") ("8") =
    .ok ["0x7", "0x8"] := by decide
example : apply_binding_to_public_inputs 0 2 ["1", "2"] ("7") ("8") =
    .ok ["0x7", "2", "0x8"] := by decide
example : apply_binding_to_public_inputs 0 0 [] ("1") ("2") =
    .ok ["0x2"] := by decide

/-! ## Admission queue: sequential control flow

`redis_cli` responses are modelled by `Option String`: `none` is a failed
store operation (timeout, OS error, or non-zero exit), `some out` a
successful one returning `out`. -/

/-- Embedding of `RedisQueueLease` (source lines 279-283). -/
structure RedisQueueLease where
  redis_url : String
  key : String
  acquired : Bool := false
deriving DecidableEq

/-- The shared Redis counter key: `none` = key absent, `some n` = value. -/
def counterVal : Option Int → Int
  | none => 0
  | some n => n

/-- Embedding of `RedisQueueLease.release` (source lines 285-294) against a
healthy store: no-op unless acquired; otherwise `DECR`, and `DEL` when the
decremented value is `≤ 0`.  Note the source never clears `self.acquired`.
Returns the (unchanged) lease and the new store state. -/
def RedisQueueLease.release (l : RedisQueueLease) (store : Option Int) :
    RedisQueueLease × Option Int :=
  if l.acquired = false then (l, store)
  else
    let current := counterVal store - 1
    if current ≤ 0 then (l, none) else (l, some current)

/-- Embedding of `redis_cli`'s error handling (source lines 297-337):
a failed operation is fatal when `hard_fail`, otherwise it degrades to
an empty output string. -/
def redis_cli (hard_fail : Bool) (resp : Option String) : Except BridgeError String :=
  match resp with
  | none =>
    if hard_fail then .error (.queueBackend ("Redis queue command failed."))
    else .ok ("")
  | some out => .ok out

/-- Store responses consumed by one iteration of the acquire loop. -/
structure IterResp where
  incr : Option String
  expire : Option String
  decr : Option String

/-- Model of `int(incr_raw.strip() or "0")` (source line 374). -/
def parseIncr (incr_raw : String) : Option Int :=
  let t := pyStripList incr_raw.data
  parsePyInt 10 (if t = [] then ['0'] else t)

/-- The lease returned by every fail-open degrade path
(`RedisQueueLease(redis_url="", key="", acquired=False)`). -/
def degradedLease : RedisQueueLease := { redis_url := "", key := "", acquired := false }

/-- Embedding of the `while True` loop of `acquire_prover_queue_slot`
(source lines 364-405).  The response list supplies one `IterResp` per
iteration; an exhausted list models the `queue_timeout_secs` deadline
expiring (checked in the source right before the retry sleep). -/
def acquire_loop (fail_open : Bool) (max_concurrent : Int) (url key : String) :
    List IterResp → Except BridgeError RedisQueueLease
  | [] => .error .queueTimeout
  | r :: rest => do
    let incr_raw ← redis_cli (!fail_open) r.incr
    if incr_raw = "" then
      return degradedLease
    match parseIncr incr_raw with
    | none =>
      if fail_open then return degradedLease
      else .error (.invalidIncrResponse incr_raw)
    | some current => do
      let expire_raw ← redis_cli (!fail_open) r.expire
      if expire_raw = "" ∧ fail_open then
        -- best-effort `DECR` (hard_fail=False), response ignored
        return degradedLease
      if current ≤ max_concurrent then
        return { redis_url := url, key := key, acquired := true }
      let decr_raw ← redis_cli (!fail_open) r.decr
      if decr_raw = "" ∧ fail_open then
        return degradedLease
      acquire_loop fail_open max_concurrent url key rest

/-- Embedding of the entry of `acquire_prover_queue_slot`
(source lines 340-362): resolved Redis URL, fail-open flag, and limit are
parameters standing for their environment lookups. -/
def acquire_prover_queue_slot (redis_url : String) (fail_open : Bool)
    (max_concurrent : Int) (key : String) (resps : List IterResp) :
    Except BridgeError RedisQueueLease :=
  if pyStripS redis_url = "" then
    if fail_open then .ok degradedLease
    else .error .missingRedisUrl
  else acquire_loop fail_open max_concurrent redis_url key resps

/-- Responses of a healthy, uncontended store for the first attempt. -/
def okResp : IterResp := { incr := some ("1\n"), expire := some ("1\n"), decr := some ("0\n") }

/-- Responses of an unreachable store: every operation fails. -/
def downResp : IterResp := { incr := none, expire := none, decr := none }

example : acquire_prover_queue_slot ("redis:6379") true 2 ("k") [okResp] =
    .ok { redis_url := "redis:6379", key := "k", acquired := true } := by decide
example : acquire_prover_queue_slot ("redis:6379") true 2 ("k") [downResp] =
    .ok degradedLease := by decide
example : acquire_prover_queue_slot ("redis:6379") false 2 ("k") [downResp] =
    .error (.queueBackend ("Redis queue command failed.")) := by decide
example : acquire_prover_queue_slot ("redis:6379") false 2 ("k")
    [{ incr := some ("3\n"), expire := some ("1\n"), decr := some ("2\n") }] =
    .error .queueTimeout := by decide

/-! ## Admission queue: concurrent semantics

Cross-process interleavings of `acquire_prover_queue_slot` /
`RedisQueueLease.release` against one healthy shared counter key.
Each process is in one of six phases of the source code:

* `idle` — before the `INCR` of an attempt (line 365) or between retries;
* `pendingAcq v` — it has executed the atomic `INCR`, which returned `v`,
  and has not yet branched on `current <= max_concurrent` (line 392);
* `acquired` — the branch succeeded (`v ≤ max`, line 393);
* `failedAttempt` — the branch failed (`v > max`) and the compensating
  `DECR` (line 396) has not run yet;
* `relPending v` — `release()` has executed its `DECR` (line 289), which
  returned `v`, but not yet the `if current <= 0: DEL` that follows
  (line 291): the two are separate store operations, and other processes
  can act in between;
* `released` — `release()` finished (lines 285-294).

`INCR` on an absent key creates it with value 1; `DECR` decrements (also
creating an absent key, at value -1); `DEL` removes the key regardless of
the value it holds at that moment. -/

inductive ProcState where
  | idle
  | pendingAcq (v : Int)
  | acquired
  | failedAttempt
  | relPending (v : Int)
  | released
deriving DecidableEq

structure QueueState where
  counter : Option Int
  procs : List ProcState
deriving DecidableEq

/-- All `k` processes idle, counter key absent. -/
def initQueueState (k : Nat) : QueueState :=
  { counter := none, procs := List.replicate k .idle }

/-- One atomic store operation (with the purely local control flow around
it) of one process of the admission queue.  A `release()` is two steps:
`releaseDecr` is its `DECR` (line 289), and then either `releaseDel`
(the value it saw was `≤ 0`: the unconditional `DEL` of line 291, which
removes the key whatever it holds by then) or `releaseKeep` (the value it
saw was positive: no second store operation). -/
inductive QStep (maxc : Int) : QueueState → QueueState → Prop
  | incr (s : QueueState) (i : Nat) (h : s.procs.get? i = some .idle) :
      QStep maxc s
        { counter := some (counterVal s.counter + 1),
          procs := s.procs.set i (.pendingAcq (counterVal s.counter + 1)) }
  | decideAcq (s : QueueState) (i : Nat) (v : Int)
      (h : s.procs.get? i = some (.pendingAcq v)) (hv : v ≤ maxc) :
      QStep maxc s { counter := s.counter, procs := s.procs.set i .acquired }
  | decideFail (s : QueueState) (i : Nat) (v : Int)
      (h : s.procs.get? i = some (.pendingAcq v)) (hv : maxc < v) :
      QStep maxc s { counter := s.counter, procs := s.procs.set i .failedAttempt }
  | failDecr (s : QueueState) (i : Nat) (h : s.procs.get? i = some .failedAttempt) :
      QStep maxc s
        { counter := some (counterVal s.counter - 1), procs := s.procs.set i .idle }
  | releaseDecr (s : QueueState) (i : Nat) (h : s.procs.get? i = some .acquired) :
      QStep maxc s
        { counter := some (counterVal s.counter - 1),
          procs := s.procs.set i (.relPending (counterVal s.counter - 1)) }
  | releaseDel (s : QueueState) (i : Nat) (v : Int)
      (h : s.procs.get? i = some (.relPending v)) (hv : v ≤ 0) :
      QStep maxc s { counter := none, procs := s.procs.set i .released }
  | releaseKeep (s : QueueState) (i : Nat) (v : Int)
      (h : s.procs.get? i = some (.relPending v)) (hv : 0 < v) :
      QStep maxc s { counter := s.counter, procs := s.procs.set i .released }

/-- States reachable from `initQueueState k` by interleaved steps. -/
def QReach (maxc : Int) (k : Nat) (s : QueueState) : Prop :=
  Relation.ReflTransGen (QStep maxc) (initQueueState k) s

def isAcq : ProcState → Bool
  | .acquired => true
  | _ => false

def countB (p : ProcState → Bool) : List ProcState → Nat
  | [] => 0
  | x :: rest => (if p x then 1 else 0) + countB p rest

/-- Number of simultaneously acquired leases. -/
def nAcq (s : QueueState) : Nat := countB isAcq s.procs

/-! The over-admission race, step by step, with `max_concurrent = 2` and
four processes.  P0 acquires and starts releasing; its `DECR` takes the
counter to 0, but before its `DEL` lands, P1 and P2 each `INCR` and are
admitted (values 1 and 2).  P0's `DEL` then erases the key — discarding
both live slots — and P3's `INCR` recreates it at 1 and is admitted too:
P1, P2 and P3 are simultaneously acquired. -/

def race0 : QueueState := initQueueState 4

def race1 : QueueState :=
  { counter := some 1, procs := [.pendingAcq 1, .idle, .idle, .idle] }

def race2 : QueueState :=
  { counter := some 1, procs := [.acquired, .idle, .idle, .idle] }

def race3 : QueueState :=
  { counter := some 0, procs := [.relPending 0, .idle, .idle, .idle] }

def race4 : QueueState :=
  { counter := some 1, procs := [.relPending 0, .pendingAcq 1, .idle, .idle] }

def race5 : QueueState :=
  { counter := some 1, procs := [.relPending 0, .acquired, .idle, .idle] }

def race6 : QueueState :=
  { counter := some 2, procs := [.relPending 0, .acquired, .pendingAcq 2, .idle] }

def race7 : QueueState :=
  { counter := some 2, procs := [.relPending 0, .acquired, .acquired, .idle] }

def race8 : QueueState :=
  { counter := none, procs := [.released, .acquired, .acquired, .idle] }

def race9 : QueueState :=
  { counter := some 1, procs := [.released, .acquired, .acquired, .pendingAcq 1] }

def race10 : QueueState :=
  { counter := some 1, procs := [.released, .acquired, .acquired, .acquired] }

theorem race_step1 : QStep 2 race0 race1 := QStep.incr race0 0 (by decide)

theorem race_step2 : QStep 2 race1 race2 :=
  QStep.decideAcq race1 0 1 (by decide) (by decide)

theorem race_step3 : QStep 2 race2 race3 := QStep.releaseDecr race2 0 (by decide)

theorem race_step4 : QStep 2 race3 race4 := QStep.incr race3 1 (by decide)

theorem race_step5 : QStep 2 race4 race5 :=
  QStep.decideAcq race4 1 1 (by decide) (by decide)

theorem race_step6 : QStep 2 race5 race6 := QStep.incr race5 2 (by decide)

theorem race_step7 : QStep 2 race6 race7 :=
  QStep.decideAcq race6 2 2 (by decide) (by decide)

theorem race_step8 : QStep 2 race7 race8 :=
  QStep.releaseDel race7 0 0 (by decide) (by decide)

theorem race_step9 : QStep 2 race8 race9 := QStep.incr race8 3 (by decide)

theorem race_step10 : QStep 2 race9 race10 :=
  QStep.decideAcq race9 3 1 (by decide) (by decide)

theorem race_reach : QReach 2 4 race10 :=
  Relation.ReflTransGen.tail
    (Relation.ReflTransGen.tail
      (Relation.ReflTransGen.tail
        (Relation.ReflTransGen.tail
          (Relation.ReflTransGen.tail
            (Relation.ReflTransGen.tail
              (Relation.ReflTransGen.tail
                (Relation.ReflTransGen.tail
                  (Relation.ReflTransGen.tail
                    (Relation.ReflTransGen.tail Relation.ReflTransGen.refl
                      race_step1)
                    race_step2)
                  race_step3)
                race_step4)
              race_step5)
            race_step6)
          race_step7)
        race_step8)
      race_step9)
    race_step10

/-- C1 failing input: `release()` issues its `DECR` (line 289) and its
conditional `DEL` (line 291) as two separate store operations, and the
`DEL` removes the key regardless of what it holds by then.  In the
interleaving `race0 → … → race10` (with `max_concurrent = 2` and four
processes), P0's `DECR` hits 0, P1 and P2 are then admitted with
post-increment values 1 and 2, P0's late `DEL` erases their two live
slots, and P3's `INCR` recreates the key at 1 and is admitted as well:
the reachable state `race10` has three simultaneously acquired leases,
violating the claimed bound. -/
theorem C1_overadmission_race :
    QReach 2 4 race10 ∧ nAcq race10 = 3 ∧ ¬ (nAcq race10 ≤ 2) :=
  ⟨race_reach, by decide, by decide⟩

/-- C2 counterexample: an acquired lease whose `release` runs twice.  The
source never clears `self.acquired` (lines 285-294), so the second call
decrements again: with the counter at 2 the first release leaves `some 1`,
and a second release on the same lease moves it to `none` — not unchanged. -/
theorem C2_release_not_idempotent :
    (RedisQueueLease.release { redis_url := "u", key := "k", acquired := true }
        (some 2)).2 = some 1
    ∧ ((RedisQueueLease.release { redis_url := "u", key := "k", acquired := true }
        (some 2)).1).acquired = true
    ∧ (RedisQueueLease.release
        ((RedisQueueLease.release { redis_url := "u", key := "k", acquired := true }
          (some 2)).1)
        ((RedisQueueLease.release { redis_url := "u", key := "k", acquired := true }
          (some 2)).2)).2 = none
    ∧ (none : Option Int) ≠ some 1 := by decide

/-- C2 amended: `release` on a never-acquired lease is a no-op on the
counter; `release` of an acquired lease decrements the counter and deletes
the key when the decremented value reaches `≤ 0`; but the lease's
`acquired` flag is never cleared, so a second `release` of the same lease
decrements again — callers must invoke it exactly once. -/
theorem C2_release_semantics (l : RedisQueueLease) (store : Option Int) :
    (l.acquired = false → RedisQueueLease.release l store = (l, store))
    ∧ (l.acquired = true →
        RedisQueueLease.release l store =
          (l, if counterVal store - 1 ≤ 0 then none else some (counterVal store - 1))
        ∧ ((RedisQueueLease.release l store).1).acquired = true) := by
  constructor
  · intro h
    simp [RedisQueueLease.release, h]
  · intro h
    constructor
    · by_cases hc : counterVal store - 1 ≤ 0
      · simp [RedisQueueLease.release, h, hc]
      · simp [RedisQueueLease.release, h, hc]
    · by_cases hc : counterVal store - 1 ≤ 0
      · simp [RedisQueueLease.release, h, hc]
      · simp [RedisQueueLease.release, h, hc]

theorem C2_release_semantics_witness :
    RedisQueueLease.release { redis_url := "", key := "", acquired := false } (some 3)
      = ({ redis_url := "", key := "", acquired := false }, some 3) :=
  (C2_release_semantics { redis_url := "", key := "", acquired := false } (some 3)).1 rfl

/-- C6: extraction binding.  When `len(public_inputs) ≤ max(nullifier_idx,
commitment_idx)` the call fails with the insufficient-public-inputs error;
otherwise it returns the felts at the two indices normalized by
`to_hex_felt`; on `["5","10","20"]` with indices 0 and 1 it yields
`0x5` and `0xa`. -/
theorem C6_bind_from_public_inputs (nIdx cIdx : Nat) (inputs : List String) :
    (inputs.length ≤ max nIdx cIdx →
      bind_nullifier_commitment_from_public_inputs nIdx cIdx inputs
        = .error (.insufficientPublicInputs inputs.length (max nIdx cIdx + 1) nIdx cIdx))
    ∧ (max nIdx cIdx < inputs.length → ∀ n c,
        to_hex_felt (.vstr (inputs.getD nIdx (""))) = .ok n →
        to_hex_felt (.vstr (inputs.getD cIdx (""))) = .ok c →
        bind_nullifier_commitment_from_public_inputs nIdx cIdx inputs = .ok (n, c))
    ∧ bind_nullifier_commitment_from_public_inputs 0 1 ["5", "10", "20"]
        = .ok ("0x5", "0xa") := by
  refine ⟨?_, ?_, by decide⟩
  · intro h
    unfold bind_nullifier_commitment_from_public_inputs
    rw [if_pos (by omega)]
  · intro h n c hn hc
    unfold bind_nullifier_commitment_from_public_inputs
    rw [if_neg (by omega)]
    rw [hn, hc]
    rfl

theorem C6_bind_from_public_inputs_witness :
    bind_nullifier_commitment_from_public_inputs 0 1 ["7", "0x9"] = .ok ("0x7", "0x9") :=
  (C6_bind_from_public_inputs 0 1 ["7", "0x9"]).2.1 (by decide) "0x7" "0x9"
    (by decide) (by decide)

theorem get?_replicate_lt (a : String) (k j : Nat) (h : j < k) :
    (List.replicate k a).get? j = some a := by
  induction k generalizing j with
  | zero => omega
  | succ m ih =>
    cases j with
    | zero => rfl
    | succ i =>
      rw [List.replicate]
      simpa using ih i (by omega)

/-- C9 counterexample: with `nullifier_idx = commitment_idx = 0` the
commitment write overwrites the nullifier write, so position 0 holds the
normalized commitment `0x2`, not the normalized nullifier `0x1` as the
claim requires. -/
theorem C9_apply_binding_same_index :
    apply_binding_to_public_inputs 0 0 [] ("1") ("2") = .ok ["0x2"]
    ∧ to_hex_felt (.vstr ("1")) = .ok ("0x1")
    ∧ (("0x2" : String) ≠ "0x1") := by decide

/-- C9 amended: for distinct indices `nullifier_idx ≠ commitment_idx` (and
binding values that normalize), the result has length
`max(len(inputs), max(nullifier_idx, commitment_idx) + 1)`, the two slots
hold the normalized nullifier and commitment, every other position below
the original length keeps its original value, and every other padded
position holds `"0x0"`.  (When the indices coincide the commitment
overwrites the nullifier.) -/
theorem C9_apply_binding (nIdx cIdx : Nat) (inputs : List String) (nf cf n c : String)
    (hne : nIdx ≠ cIdx)
    (hn : to_hex_felt (.vstr nf) = .ok n) (hc : to_hex_felt (.vstr cf) = .ok c) :
    ∃ out, apply_binding_to_public_inputs nIdx cIdx inputs nf cf = .ok out
      ∧ out.length = max inputs.length (max nIdx cIdx + 1)
      ∧ out.get? nIdx = some n
      ∧ out.get? cIdx = some c
      ∧ (∀ i, i < inputs.length → i ≠ nIdx → i ≠ cIdx → out.get? i = inputs.get? i)
      ∧ (∀ i, inputs.length ≤ i → i < out.length → i ≠ nIdx → i ≠ cIdx →
          out.get? i = some ("0x0")) := by
  have hrun : apply_binding_to_public_inputs nIdx cIdx inputs nf cf
      = .ok (((inputs ++
          List.replicate (max nIdx cIdx + 1 - inputs.length) "0x0").set nIdx n).set
            cIdx c) := by
    unfold apply_binding_to_public_inputs
    rw [hn, hc]
    rfl
  have hplen : (inputs ++
      List.replicate (max nIdx cIdx + 1 - inputs.length) "0x0").length
      = max inputs.length (max nIdx cIdx + 1) := by
    simp only [List.length_append, List.length_replicate]
    omega
  refine ⟨_, hrun, ?_, ?_, ?_, ?_, ?_⟩
  · simp only [List.length_set]
    exact hplen
  · rw [List.get?_set_ne c _ (fun hcn => hne hcn.symm)]
    exact List.get?_set_eq_of_lt n (by simp only [List.length_set, hplen]; omega)
  · exact List.get?_set_eq_of_lt c (by simp only [List.length_set, hplen]; omega)
  · intro i hi hin hic
    rw [List.get?_set_ne c _ (fun hx => hic hx.symm),
      List.get?_set_ne n _ (fun hx => hin hx.symm)]
    exact List.get?_append hi
  · intro i hlow hhigh hin hic
    rw [List.get?_set_ne c _ (fun hx => hic hx.symm),
      List.get?_set_ne n _ (fun hx => hin hx.symm)]
    rw [List.get?_append_right hlow]
    apply get?_replicate_lt
    rw [List.length_set, List.length_set, hplen] at hhigh
    omega

theorem C9_apply_binding_witness :
    ∃ out, apply_binding_to_public_inputs 0 2 ["9"] ("7") ("8") = .ok out
      ∧ out.length = max (["9"] : List String).length (max 0 2 + 1)
      ∧ out.get? 0 = some ("0x7")
      ∧ out.get? 2 = some ("0x8")
      ∧ (∀ i, i < (["9"] : List String).length → i ≠ 0 → i ≠ 2 →
          out.get? i = (["9"] : List String).get? i)
      ∧ (∀ i, (["9"] : List String).length ≤ i → i < out.length → i ≠ 0 → i ≠ 2 →
          out.get? i = some ("0x0")) :=
  C9_apply_binding 0 2 ["9"] ("7") ("8") "0x7" "0x8" (by decide) (by decide) (by decide)

/-! ## Roundtrip lemmas for the felt codec -/

theorem digitVal_hexDigitChar : ∀ d, d < 16 → digitVal 16 (hexDigitChar d) = some d := by
  decide

theorem hexDigitChar_ne_underscore : ∀ d, d < 16 → hexDigitChar d ≠ '_' := by decide

theorem hexDigitChar_not_space : ∀ d, d < 16 → isPySpace (hexDigitChar d) = false := by
  decide

/-- Parsing the hex rendering of `n` (with arbitrary continuation `l2`)
accumulates exactly `n` past the accumulator. -/
theorem digitsRun_toHexDigitsAux (fuel : Nat) :
    ∀ n acc l2, n < fuel →
      digitsRun 16 acc (toHexDigitsAux fuel n ++ l2)
        = digitsRun 16 (acc * 16 ^ (toHexDigitsAux fuel n).length + n) l2 := by
  induction fuel with
  | zero => intro n acc l2 h; omega
  | succ f ih =>
    intro n acc l2 h
    by_cases h16 : n < 16
    · simp only [toHexDigitsAux, if_pos h16, List.cons_append, List.nil_append,
        List.length_cons, List.length_nil]
      rw [digitsRun.eq_def]
      dsimp only
      rw [if_neg (hexDigitChar_ne_underscore n h16), digitVal_hexDigitChar n h16]
      dsimp only
      norm_num
    · simp only [toHexDigitsAux, if_neg h16]
      rw [List.append_assoc]
      have hd : n / 16 < n := Nat.div_lt_self (by omega) (by omega)
      rw [ih (n / 16) acc ([hexDigitChar (n % 16)] ++ l2) (by omega)]
      simp only [List.cons_append, List.nil_append]
      rw [digitsRun.eq_def]
      dsimp only
      rw [if_neg (hexDigitChar_ne_underscore _ (Nat.mod_lt n (by omega))),
        digitVal_hexDigitChar _ (Nat.mod_lt n (by omega))]
      dsimp only
      congr 1
      simp only [List.length_append, List.length_cons, List.length_nil]
      have hmod : 16 * (n / 16) + n % 16 = n := Nat.div_add_mod n 16
      generalize (toHexDigitsAux f (n / 16)).length = L
      calc (acc * 16 ^ L + n / 16) * 16 + n % 16
          = acc * (16 ^ L * 16) + (16 * (n / 16) + n % 16) := by ring
        _ = acc * (16 ^ L * 16) + n := by rw [hmod]
        _ = acc * 16 ^ (L + 1) + n := by rw [pow_succ]

theorem toHexDigitsAux_ne_nil (fuel n : Nat) (h : n < fuel) :
    toHexDigitsAux fuel n ≠ [] := by
  cases fuel with
  | zero => omega
  | succ f =>
    simp only [toHexDigitsAux]
    split
    · simp
    · simp

theorem digitsRun_toHexDigits (m : Nat) : digitsRun 16 0 (toHexDigits m) = some m := by
  have h := digitsRun_toHexDigitsAux (m + 1) m 0 [] (Nat.lt_succ_self m)
  rw [List.append_nil] at h
  unfold toHexDigits
  rw [h]
  simp [digitsRun]

/-- Roundtrip: `int(hex(m), 16)` recovers `m`. -/
theorem parse_pyHex (m : Nat) :
    parsePyInt 16 ('0' :: 'x' :: toHexDigits m) = some (m : Int) := by
  rw [parsePyInt.eq_def]
  dsimp only
  rw [if_neg (by decide), if_neg (by decide)]
  unfold parsePyIntNoSign
  rw [if_pos rfl]
  dsimp only
  rw [if_pos (by exact ⟨rfl, Or.inl rfl⟩)]
  cases hds : toHexDigits m with
  | nil =>
    have := toHexDigitsAux_ne_nil (m + 1) m (Nat.lt_succ_self m)
    unfold toHexDigits at hds
    exact absurd hds this
  | cons a t =>
    dsimp only
    rw [← hds, digitsRun_toHexDigits m]
    rfl

theorem toHexDigits_mem (m : Nat) :
    ∀ c ∈ toHexDigits m, ∃ d, d < 16 ∧ c = hexDigitChar d := by
  unfold toHexDigits
  generalize hfuel : m + 1 = fuel
  have hm : m < fuel := by omega
  clear hfuel
  induction fuel generalizing m with
  | zero => omega
  | succ f ih =>
    intro c hc
    simp only [toHexDigitsAux] at hc
    by_cases h16 : m < 16
    · rw [if_pos h16] at hc
      simp only [List.mem_singleton] at hc
      exact ⟨m, h16, hc⟩
    · rw [if_neg h16] at hc
      rw [List.mem_append] at hc
      rcases hc with hc | hc
      · exact ih (m / 16)
          (by
            have : m / 16 < m := Nat.div_lt_self (by omega) (by omega)
            omega) c hc
      · simp only [List.mem_singleton] at hc
        exact ⟨m % 16, Nat.mod_lt m (by omega), hc⟩

theorem pyHex_chars_nonspace (m : Nat) :
    ∀ c ∈ ('0' :: 'x' :: toHexDigits m), isPySpace c = false := by
  intro c hc
  simp only [List.mem_cons] at hc
  rcases hc with rfl | rfl | hc
  · rfl
  · rfl
  · obtain ⟨d, hd, rfl⟩ := toHexDigits_mem m c hc
    exact hexDigitChar_not_space d hd

theorem dropWhile_eq_self_of_all (l : List Char)
    (h : ∀ c ∈ l, isPySpace c = false) : l.dropWhile isPySpace = l := by
  cases l with
  | nil => rfl
  | cons a t =>
    rw [List.dropWhile_cons, h a (by simp)]
    simp

theorem pyStripList_all_nonspace (l : List Char)
    (h : ∀ c ∈ l, isPySpace c = false) : pyStripList l = l := by
  unfold pyStripList
  rw [dropWhile_eq_self_of_all l h]
  rw [dropWhile_eq_self_of_all l.reverse (fun c hc => h c (List.mem_reverse.mp hc))]
  exact List.reverse_reverse l

theorem STARKNET_PRIME_pos : 0 < STARKNET_PRIME := by decide

theorem intModPrime_lt (n : Int) : intModPrime n < STARKNET_PRIME := by
  have hP : (0 : Int) < (STARKNET_PRIME : Int) := by exact_mod_cast STARKNET_PRIME_pos
  have h2 := Int.emod_lt_of_pos n hP
  have h1 := Int.emod_nonneg n (ne_of_gt hP)
  unfold intModPrime
  omega

/-- Normalizing the canonical hex serialization of a reduced value is a
no-op: the felt codec is idempotent on its own output. -/
theorem to_hex_felt_pyHex (m : Nat) (hm : m < STARKNET_PRIME) :
    to_hex_felt (.vstr (pyHex m)) = .ok (pyHex m) := by
  have hdata : (pyHex m).data = '0' :: 'x' :: toHexDigits m := rfl
  simp only [to_hex_felt, hdata]
  rw [pyStripList_all_nonspace _ (pyHex_chars_nonspace m)]
  rw [if_neg (by simp)]
  have h0 : asciiLower '0' = '0' := by decide
  have hx : asciiLower 'x' = 'x' := by decide
  have hsx : starts0x (('0' :: 'x' :: toHexDigits m).map asciiLower) = true := by
    rw [List.map_cons, List.map_cons, h0, hx]
    rfl
  rw [if_pos hsx]
  rw [parse_pyHex m]
  have hfix : intModPrime (m : Int) = m := by
    unfold intModPrime
    rw [Int.emod_eq_of_lt (by omega) (by exact_mod_cast hm)]
    simp
  dsimp only
  rw [hfix]

/-- C7: every successful normalization returns the canonical hex
serialization of a value reduced into `[0, P)`, and re-normalizing that
output returns it unchanged. -/
theorem C7_normalize_range_idempotent (v : PyVal) (s : String)
    (h : to_hex_felt v = .ok s) :
    (∃ m, m < STARKNET_PRIME ∧ s = pyHex m) ∧ to_hex_felt (.vstr s) = .ok s := by
  have key : ∃ m, m < STARKNET_PRIME ∧ s = pyHex m := by
    cases v with
    | vstr t =>
      simp only [to_hex_felt] at h
      split at h
      · exact absurd h (by simp)
      · split at h
        · split at h
          · rename_i n heq
            exact ⟨intModPrime n, intModPrime_lt n, (Except.ok.inj h).symm⟩
          · exact absurd h (by simp)
        · split at h
          · rename_i n heq
            exact ⟨intModPrime n, intModPrime_lt n, (Except.ok.inj h).symm⟩
          · exact absurd h (by simp)
    | vint n =>
      simp only [to_hex_felt] at h
      exact ⟨intModPrime n, intModPrime_lt n, (Except.ok.inj h).symm⟩
    | vnone => simp [to_hex_felt] at h
    | vdict d => simp [to_hex_felt] at h
  obtain ⟨m, hm, rfl⟩ := key
  exact ⟨⟨m, hm, rfl⟩, to_hex_felt_pyHex m hm⟩

theorem C7_normalize_range_idempotent_witness :
    (∃ m, m < STARKNET_PRIME ∧ "0xa" = pyHex m) ∧
      to_hex_felt (.vstr ("0xa")) = .ok ("0xa") :=
  C7_normalize_range_idempotent (.vstr (" 10 ")) "0xa" (by decide)

/-- C8 counterexample: `"zz"` is a non-empty string, so by the claim it must
normalize successfully — but `int("zz", 10)` raises an uncaught
`ValueError` (source line 90), which is neither a successful result nor the
controlled `MalformedFeltError` exit. -/
theorem C8_nonnumeric_string_not_covered :
    to_hex_felt (.vstr ("zz")) = .error (.valueError ("zz"))
    ∧ BridgeError.valueError ("zz") ≠ BridgeError.emptyFelt := by decide

/-- C8 amended: `normalize` fails with `MalformedFeltError` exactly on
empty/whitespace-only strings and on non-string, non-integer inputs;
integer inputs always succeed; a non-empty string succeeds exactly when it
parses as a Python int literal (base 16 when its lowered strip starts with
`0x`, else base 10), and otherwise raises an uncaught `ValueError` rather
than `MalformedFeltError`. -/
theorem C8_normalize_failure_modes (s : String) (n : Int) (d : PyDict) :
    to_hex_felt (.vint n) = .ok (pyHex (intModPrime n))
    ∧ to_hex_felt .vnone = .error (.unsupportedFeltType ("NoneType"))
    ∧ to_hex_felt (.vdict d) = .error (.unsupportedFeltType ("dict"))
    ∧ (pyStripList s.data = [] → to_hex_felt (.vstr s) = .error .emptyFelt)
    ∧ (pyStripList s.data ≠ [] →
        ((∃ out, to_hex_felt (.vstr s) = .ok out) ↔
          (parsePyInt
            (if starts0x ((pyStripList s.data).map asciiLower) then 16 else 10)
            (pyStripList s.data)).isSome))
    ∧ (pyStripList s.data ≠ [] →
        parsePyInt (if starts0x ((pyStripList s.data).map asciiLower) then 16 else 10)
          (pyStripList s.data) = none →
        to_hex_felt (.vstr s) = .error (.valueError (String.mk (pyStripList s.data)))) := by
  refine ⟨rfl, rfl, rfl, ?_, ?_, ?_⟩
  · intro h
    simp only [to_hex_felt]
    rw [if_pos h]
  · intro h
    simp only [to_hex_felt]
    rw [if_neg h]
    by_cases hsx : starts0x ((pyStripList s.data).map asciiLower) = true
    · rw [if_pos hsx, if_pos hsx]
      cases hp : parsePyInt 16 (pyStripList s.data) <;> simp [hp]
    · rw [if_neg hsx, if_neg hsx]
      cases hp : parsePyInt 10 (pyStripList s.data) <;> simp [hp]
  · intro h hp
    simp only [to_hex_felt]
    rw [if_neg h]
    by_cases hsx : starts0x ((pyStripList s.data).map asciiLower) = true
    · rw [if_pos hsx] at hp
      rw [if_pos hsx, hp]
    · rw [if_neg hsx] at hp
      rw [if_neg hsx, hp]

theorem C8_normalize_failure_modes_witness :
    to_hex_felt (.vstr ("  ")) = .error .emptyFelt :=
  (C8_normalize_failure_modes ("  ") 0 .nil).2.2.2.1 (by decide)

theorem except_bind_ok {ε α β : Type} (a : α) (f : α → Except ε β) :
    (Except.ok a >>= f) = f a := rfl

theorem except_bind_error {ε α β : Type} (e : ε) (f : α → Except ε β) :
    ((Except.error e : Except ε α) >>= f) = Except.error e := rfl

theorem except_pure {ε α : Type} (a : α) : (pure a : Except ε α) = Except.ok a := rfl

/-- C3: fail-open degradation.  Whichever store operation of an iteration
fails (`INCR`, the `EXPIRE` TTL refresh, or the compensating `DECR` of an
over-capacity attempt — an unreachable store fails all of them), with
fail-open enabled (the source default, line 342) the acquire loop returns
the unacquired degraded lease `RedisQueueLease("", "", acquired=False)`
without raising; with fail-open disabled the same failure is fatal with
the queue-backend error raised by `redis_cli`. -/
theorem C3_fail_open_degradation (maxc : Int) (url key : String)
    (r : IterResp) (rest : List IterResp) :
    (r.incr = none →
        acquire_loop true maxc url key (r :: rest) = .ok degradedLease
      ∧ acquire_loop false maxc url key (r :: rest)
          = .error (.queueBackend ("Redis queue command failed.")))
    ∧ (∀ out cur, r.incr = some out → out ≠ "" → parseIncr out = some cur →
        r.expire = none →
        acquire_loop true maxc url key (r :: rest) = .ok degradedLease
      ∧ acquire_loop false maxc url key (r :: rest)
          = .error (.queueBackend ("Redis queue command failed.")))
    ∧ (∀ out cur eout, r.incr = some out → out ≠ "" → parseIncr out = some cur →
        r.expire = some eout → eout ≠ "" → maxc < cur → r.decr = none →
        acquire_loop true maxc url key (r :: rest) = .ok degradedLease
      ∧ acquire_loop false maxc url key (r :: rest)
          = .error (.queueBackend ("Redis queue command failed."))) := by
  refine ⟨?_, ?_, ?_⟩
  · intro hincr
    constructor
    · rw [acquire_loop.eq_def]
      dsimp only
      rw [hincr]
      simp only [redis_cli, except_bind_ok]
      rfl
    · rw [acquire_loop.eq_def]
      dsimp only
      rw [hincr]
      simp [redis_cli, except_bind_error]
  · intro out cur hincr hout hpar hexp
    constructor
    · rw [acquire_loop.eq_def]
      dsimp only
      rw [hincr]
      simp only [redis_cli, except_bind_ok]
      rw [if_neg hout, hpar]
      dsimp only
      rw [hexp]
      simp [redis_cli, except_bind_ok, except_pure]
    · rw [acquire_loop.eq_def]
      dsimp only
      rw [hincr]
      simp only [redis_cli, except_bind_ok]
      rw [if_neg hout, hpar]
      dsimp only
      rw [hexp]
      simp [redis_cli, except_bind_error]
  · intro out cur eout hincr hout hpar hexp hene hcur hdecr
    constructor
    · rw [acquire_loop.eq_def]
      dsimp only
      rw [hincr]
      simp only [redis_cli, except_bind_ok]
      rw [if_neg hout, hpar]
      dsimp only
      rw [hexp]
      simp only [redis_cli, except_bind_ok]
      rw [if_neg (by simp [hene]), if_neg (not_le.mpr hcur), hdecr]
      simp [redis_cli, except_bind_ok, except_pure]
    · rw [acquire_loop.eq_def]
      dsimp only
      rw [hincr]
      simp only [redis_cli, except_bind_ok]
      rw [if_neg hout, hpar]
      dsimp only
      rw [hexp]
      simp only [redis_cli, except_bind_ok]
      rw [if_neg (by simp), if_neg (not_le.mpr hcur), hdecr]
      simp [redis_cli, except_bind_error]

theorem C3_fail_open_degradation_witness :
    acquire_loop true 2 ("redis:6379") ("k") [downResp] = .ok degradedLease
    ∧ acquire_loop false 2 ("redis:6379") ("k") [downResp]
        = .error (.queueBackend ("Redis queue command failed.")) :=
  (C3_fail_open_degradation 2 ("redis:6379") ("k") downResp []).1 rfl

/-! ## Intent hash: determinism, flow collision, totality -/

/-- Evaluation lemma: `compute_intent_hash` never fails; its result is the reduced digest of
the flow preimage joined by pipes, paired with the resolved nonce. -/
theorem compute_intent_hash_eq (p : StdinPayload) (t : String) :
    compute_intent_hash p t =
      .ok (pyHex (intModPrime (Int.ofNat (intFromBytesBE
          (sha256Bytes (utf8Encode (intentPreimageString p (resolveNonce p t))))))),
        resolveNonce p t) := rfl

/-- Payload with no nonce source at all: the process-time fallback decides. -/
def emptyPayload : StdinPayload := {}

/-- Swap payload whose `from_token`, `to_token` and `amount` coincide. -/
def collideSwap : StdinPayload where
  user_address := some (.vstr ("0xabc"))
  tx_context := some (.vdict (pyDictOf
    [("flow", .vstr ("swap")), ("from_token", .vstr ("tok")),
     ("to_token", .vstr ("tok")), ("amount", .vstr ("tok")),
     ("nonce", .vstr ("n1"))]))

/-- Payload `collideSwap` with only the flow changed to `stake`. -/
def collideStake : StdinPayload where
  user_address := some (.vstr ("0xabc"))
  tx_context := some (.vdict (pyDictOf
    [("flow", .vstr ("stake")), ("from_token", .vstr ("tok")),
     ("to_token", .vstr ("tok")), ("amount", .vstr ("tok")),
     ("nonce", .vstr ("n1"))]))

/-- C4 counterexample, both conjuncts of the claim fail on the code:
(i) with no `tx_context.nonce` and no `requested_at_unix`, the nonce is the
process-time fallback, so two runs over the identical request return
different `(IntentHash, nonce)` pairs; (ii) changing `flow` from `swap` to
`stake` with every other field identical does not change the intent hash
when `from_token = to_token = amount` with no `token`/`pool` keys — both
flows then build the very same preimage string `0xabc|tok|tok|tok|n1`. -/
theorem C4_intent_hash_claim_fails :
    Except.map Prod.snd (compute_intent_hash emptyPayload ("11")) = .ok ("11")
    ∧ Except.map Prod.snd (compute_intent_hash emptyPayload ("22")) = .ok ("22")
    ∧ (("11" : String) ≠ "22")
    ∧ compute_intent_hash collideSwap ("t0") = compute_intent_hash collideStake ("t0") := by
  refine ⟨?_, ?_, by decide, ?_⟩
  · rw [compute_intent_hash_eq]
    show Except.ok (resolveNonce emptyPayload ("11")) = Except.ok ("11")
    rw [show resolveNonce emptyPayload ("11") = "11" from by decide]
  · rw [compute_intent_hash_eq]
    show Except.ok (resolveNonce emptyPayload ("22")) = Except.ok ("22")
    rw [show resolveNonce emptyPayload ("22") = "22" from by decide]
  · have hn : resolveNonce collideSwap ("t0") = resolveNonce collideStake ("t0") := by
      decide
    have hpre : intentPreimageString collideSwap (resolveNonce collideSwap ("t0"))
        = intentPreimageString collideStake (resolveNonce collideStake ("t0")) := by
      decide
    rw [compute_intent_hash_eq, compute_intent_hash_eq, hpre, hn]

/-- C4 amended: `compute_intent_hash` is a deterministic function of the
request and the process-time fallback; whenever the nonce resolves from
`tx_context.nonce` or `requested_at_unix` (i.e. does not fall back to
process time), identical requests give identical `(IntentHash, nonce)`
across runs.  Changing `flow` from `swap` to `stake` changes the hash
exactly when it changes the preimage string — it does on the spec's sample
request (verified below by computation), but not when the two flows'
preimages coincide (see the counterexample). -/
theorem C4_intent_determinism (p : StdinPayload) (t t' : String)
    (h : nonceBase p ≠ "") :
    compute_intent_hash p t = compute_intent_hash p t'
    ∧ Except.map Prod.fst (compute_intent_hash sampleSwap ("t"))
        ≠ Except.map Prod.fst (compute_intent_hash sampleStake ("t")) := by
  constructor
  · have hr : resolveNonce p t = resolveNonce p t' := by
      unfold resolveNonce
      rw [if_neg h, if_neg h]
    rw [compute_intent_hash_eq, compute_intent_hash_eq, hr]
  · decide

theorem C4_intent_determinism_witness :
    (compute_intent_hash sampleSwap ("71") = compute_intent_hash sampleSwap ("72"))
    ∧ Except.map Prod.fst (compute_intent_hash sampleSwap ("t"))
        ≠ Except.map Prod.fst (compute_intent_hash sampleStake ("t")) :=
  C4_intent_determinism sampleSwap ("71") ("72") (by decide)

/-- A payload whose `tx_context` is present but not a JSON object. -/
def badCtxPayload : StdinPayload :=
  { tx_context := some (.vstr ("oops")), user_address := some (.vstr ("0xAB")) }

/-- C10: when `tx_context` is absent or not a dict, `compute_intent_hash`
treats it as the empty mapping, lands in the default-flow preimage
`[address, canonical_json({}), nonce]`, and still succeeds. -/
theorem C10_intent_hash_total_on_malformed_context (p : StdinPayload) (t : String)
    (h : ∀ d, p.tx_context ≠ some (.vdict d)) :
    compute_intent_hash p t =
      .ok (pyHex (intModPrime (Int.ofNat (intFromBytesBE (sha256Bytes (utf8Encode
          (joinStr ("|") [userAddressOf p, jsonDumpsSorted .nil, resolveNonce p t])))))),
        resolveNonce p t) := by
  have htx : txContextOf p = .nil := by
    unfold txContextOf
    cases hc : p.tx_context with
    | none => rfl
    | some v =>
      cases v with
      | vstr s => rfl
      | vint n => rfl
      | vnone => rfl
      | vdict d => exact absurd hc (h d)
  rw [compute_intent_hash_eq]
  have hpre : intentPreimageString p (resolveNonce p t)
      = joinStr ("|") [userAddressOf p, jsonDumpsSorted .nil, resolveNonce p t] := by
    simp only [intentPreimageString, intentPreimage]
    rw [htx]
    rw [show pyLowerS (txField .nil ["flow", "action_type"]) = "" from rfl]
    rw [if_neg (by decide), if_neg (by decide), if_neg (by decide)]
  rw [hpre]

theorem C10_intent_hash_total_witness :
    compute_intent_hash badCtxPayload ("42") =
      .ok (pyHex (intModPrime (Int.ofNat (intFromBytesBE (sha256Bytes (utf8Encode
          (joinStr ("|") [userAddressOf badCtxPayload, jsonDumpsSorted .nil,
            resolveNonce badCtxPayload ("42")])))))),
        resolveNonce badCtxPayload ("42")) :=
  C10_intent_hash_total_on_malformed_context badCtxPayload ("42")
    (fun d => by simp [badCtxPayload])

/-! ## Dynamic binding: construction and sampled domain separation

The universal statement "nullifier ≠ commitment for every seed" is
equivalent to the absence of a SHA-256 collision (mod P) between the
`:nullifier`- and `:commitment`-suffixed extensions over all seeds, which
is neither provable nor refutable here; the construction itself and a
computed sample are verified below. -/

/-- Construction lemma: `make_dynamic_binding` builds exactly the seed
`{intentHash}|{nonce}|{requestedAt}|{verifier}` and returns the reduced
digests of the `:nullifier`- and `:commitment`-suffixed seed. -/
theorem make_dynamic_binding_eq (p : StdinPayload) (intent_hash nonce : String) :
    make_dynamic_binding p intent_hash nonce =
      .ok (pyHex (intModPrime (Int.ofNat (intFromBytesBE (sha256Bytes
            (utf8Encode (intent_hash ++ "|" ++ nonce ++ "|"
                ++ pyStripS (pyStr (p.requested_at_unix.getD (.vstr (""))))
                ++ "|" ++ pyStr (p.verifier.getD (.vstr (""))))
              ++ utf8Encode (":nullifier")))))),
        pyHex (intModPrime (Int.ofNat (intFromBytesBE (sha256Bytes
            (utf8Encode (intent_hash ++ "|" ++ nonce ++ "|"
                ++ pyStripS (pyStr (p.requested_at_unix.getD (.vstr (""))))
                ++ "|" ++ pyStr (p.verifier.getD (.vstr (""))))
              ++ utf8Encode (":commitment"))))))) := rfl

/-- On the sampled seed `0xaa|n1|1000|garaga` the two domain-separated
digests differ (computed). -/
theorem dynamic_binding_sample_distinct :
    make_dynamic_binding
        { requested_at_unix := some (.vint 1000), verifier := some (.vstr ("garaga")) }
        ("0xaa") ("n1")
      = .ok ("0x6b09af7cf99ffd02fc0f13fe8c19bb3a41926fc9b5b6f32c12acfdf26b03204",
             "0x5be422804846a79e2d7faa7096e465eb45c0d8e89505fa603f45d64adfddeee")
    ∧ (("0x6b09af7cf99ffd02fc0f13fe8c19bb3a41926fc9b5b6f32c12acfdf26b03204" : String)
        ≠ "0x5be422804846a79e2d7faa7096e465eb45c0d8e89505fa603f45d64adfddeee") := by
  decide
